import Mathlib

set_option autoImplicit false

namespace ImageProject

/-!
Shallow embedding of the queue / worker-supervision subsystem of the
image_project backend.

The embedded sources are:
  - backend/app/api/endpoints/image_to_video.py  (class TimeEstimator)
  - backend/app/main.py                          (monitor_worker)
  - backend/app/services/queue/queue_service.py  (class QueueService)
  - backend/app/services/redis_queue_service.py  (class RedisQueueService)
  - backend/app/services/queue_worker.py         (class QueueWorker)

Redis hashes / keys are modelled as association lists from key strings to
values; wall-clock instants and durations are rationals; Python ints are
modelled as Int (or Nat where the source value is a count that is
manifestly non-negative).
-/

/-- Lookup in an association list, modelling a Redis key read
(hgetall / get returning nil when the key is absent). -/
def alookup {α : Type} : List (String × α) → String → Option α
  | [], _ => none
  | (k, v) :: rest, key => if key = k then some v else alookup rest key

/-- Write to an association list, modelling a Redis key write
(set / hset, creating the key when absent). -/
def aset {α : Type} : List (String × α) → String → α → List (String × α)
  | [], key, v => [(key, v)]
  | (k, w) :: rest, key, v =>
      if key = k then (key, v) :: rest else (k, w) :: aset rest key v

/-- Python's round-half-to-even rounding to an integer. -/
def roundHalfEven (q : ℚ) : ℤ :=
  let f := q.floor
  let r := q - f
  if r < 1/2 then f
  else if 1/2 < r then f + 1
  else if 2 ∣ f then f else f + 1

/-- Python's round(x, 1). -/
def round1 (q : ℚ) : ℚ := (roundHalfEven (q * 10) : ℚ) / 10

/-- Python's round(x, 2). -/
def round2 (q : ℚ) : ℚ := (roundHalfEven (q * 100) : ℚ) / 100

/-- statistics.mean of a list of rationals (the sources only apply it to
non-empty lists). -/
def mean (l : List ℚ) : ℚ := l.sum / l.length

/-! ### TimeEstimator (backend/app/api/endpoints/image_to_video.py) -/

/-- The dictionary returned by TimeEstimator.update.  The human-readable
timedelta strings and the two per-step diagnostic keys that only appear on
the new-step branch are presentation detail and are not modelled. -/
structure ProgressSnapshot where
  elapsed_seconds : ℚ
  estimated_remaining_seconds : ℚ
  estimated_total_seconds : ℚ
  steps_per_second : ℚ
  percent_complete : ℚ
deriving Repr, DecidableEq

/-- Mutable state of a TimeEstimator instance. -/
structure TimeEstimator where
  total_steps : ℤ
  start_time : ℚ
  step_times : List ℚ
  last_step_time : ℚ
  last_step : ℤ
deriving Repr, DecidableEq

/-- TimeEstimator.__init__(total_steps) at wall-clock instant now. -/
def TimeEstimator.init (totalSteps : ℤ) (now : ℚ) : TimeEstimator :=
  { total_steps := totalSteps
    start_time := now
    step_times := []
    last_step_time := now
    last_step := 0 }

/-- TimeEstimator.update(current_step) called at wall-clock instant
currentTime: returns the new estimator state and the snapshot dictionary. -/
def teUpdate (e : TimeEstimator) (currentTime : ℚ) (currentStep : ℤ) :
    TimeEstimator × ProgressSnapshot :=
  if currentStep = e.last_step then
    let elapsed := currentTime - e.start_time
    let estRemaining :=
      if 0 < e.step_times.length then
        mean e.step_times * ((e.total_steps - currentStep : ℤ) : ℚ)
      else 0
    (e,
      { elapsed_seconds := round1 elapsed
        estimated_remaining_seconds := round1 estRemaining
        estimated_total_seconds := round1 (elapsed + estRemaining)
        steps_per_second :=
          if elapsed = 0 then 0 else round2 ((currentStep : ℚ) / elapsed)
        percent_complete :=
          if 0 < e.total_steps then
            round1 ((currentStep : ℚ) / (e.total_steps : ℚ) * 100)
          else 0 })
  else
    let stepTime := currentTime - e.last_step_time
    let stepsTaken := currentStep - e.last_step
    let appended :=
      if 1 < stepsTaken then
        e.step_times ++ List.replicate stepsTaken.toNat (stepTime / (stepsTaken : ℚ))
      else e.step_times ++ [stepTime]
    let window :=
      if 10 < appended.length then appended.drop (appended.length - 10) else appended
    let elapsed := currentTime - e.start_time
    let avgStepTime := mean window
    let estRemaining := avgStepTime * ((e.total_steps - currentStep : ℤ) : ℚ)
    ({ e with step_times := window, last_step_time := currentTime, last_step := currentStep },
      { elapsed_seconds := round1 elapsed
        estimated_remaining_seconds := round1 estRemaining
        estimated_total_seconds := round1 (elapsed + estRemaining)
        steps_per_second :=
          if 0 < elapsed then round2 ((currentStep : ℚ) / elapsed) else 0
        percent_complete :=
          if 0 < e.total_steps then
            round1 ((currentStep : ℚ) / (e.total_steps : ℚ) * 100)
          else 0 })

/-- The list of inter-step durations recorded by an update call that
carries a step index different from the last reported one, appended to the
previously recorded durations (mirrors lines 74-83 of the source). -/
def newDurations (e : TimeEstimator) (currentTime : ℚ) (currentStep : ℤ) : List ℚ :=
  let stepTime := currentTime - e.last_step_time
  let stepsTaken := currentStep - e.last_step
  if 1 < stepsTaken then
    e.step_times ++ List.replicate stepsTaken.toNat (stepTime / (stepsTaken : ℚ))
  else e.step_times ++ [stepTime]

/-- The at-most-10 most recent elements of a list (Python slice l[-10:]). -/
def lastTen (l : List ℚ) : List ℚ := l.drop (l.length - 10)

/-! ### Worker supervision backoff (backend/app/main.py, monitor_worker) -/

/-- Local state of the monitor_worker loop that is relevant to restart
backoff.  consecutive_rapid_failures drives only the separate
anti-flapping extra sleep at the top of the loop and is not part of the
restart-delay computation. -/
structure MonitorState where
  retry_count : ℕ
  backoff_time : ℕ
deriving Repr, DecidableEq

/-- monitor_worker initial state: retry_count = 0, backoff_time = 1. -/
def monitorInit : MonitorState := { retry_count := 0, backoff_time := 1 }

/-- max_retries in monitor_worker. -/
def maxRetries : ℕ := 10

/-- One pass of the monitor_worker loop after run_worker returned failure:
yields the sleep applied before the next restart attempt and the updated
state.  On the failure that exceeds max_retries the loop sleeps 300
seconds and resets retry_count to 0; otherwise it sleeps
min(backoff_time * 2 ^ (retry_count - 1), 120). -/
def monitorFailDelay (s : MonitorState) : ℕ × MonitorState :=
  let rc := s.retry_count + 1
  if maxRetries < rc then (300, { s with retry_count := 0 })
  else (min (s.backoff_time * 2 ^ (rc - 1)) 120, { s with retry_count := rc })

/-- State of monitor_worker after n consecutive worker-bootstrap failures,
starting from a fresh loop (no prior failures, no intervening success). -/
def monitorStateAfter : ℕ → MonitorState
  | 0 => monitorInit
  | n + 1 => (monitorFailDelay (monitorStateAfter n)).2

/-- The restart delay monitor_worker sleeps after the k-th consecutive
worker-bootstrap failure (k counted from 1). -/
def nthFailureDelay (k : ℕ) : ℕ :=
  (monitorFailDelay (monitorStateAfter (k - 1))).1

/-! ### QueueService (backend/app/services/queue/queue_service.py) -/

/-- MAX_ACTIVE_QUEUES_PER_USER in queue_service.py. -/
def MAX_ACTIVE_QUEUES_PER_USER : ℕ := 5

/-- The JSON blob stored under the queue data key of a queue.  Entries of
completed_tasks / failed_tasks are kept as opaque serialized strings. -/
structure QueueData where
  queue_id : String
  user_id : String
  project_id : ℤ
  model_id : ℤ
  created_at : String
  status : String
  total_tasks : ℕ
  total_completed : ℕ
  total_failed : ℕ
  completed_tasks : List String
  failed_tasks : List String
  concurrency : ℕ
  error : Option String
  completed_at : Option String
  cancelled_at : Option String
deriving Repr, DecidableEq

/-- The slice of the Redis keyspace touched by QueueService: queue JSON
blobs, per-queue task lists, per-user queue-id lists, and the RQ job
queues.  Task payloads and RQ jobs are opaque strings. -/
structure QSStore where
  queueDatas : List (String × QueueData)
  queueTasks : List (String × List String)
  userQueues : List (String × List String)
  rqJobs : List (String × List String)
deriving Repr, DecidableEq

/-- Pure part of QueueService._update_queue_status applied to the loaded
queue blob: optional status / error overwrite, appending a completed or a
failed task entry (refreshing the corresponding count), then the drain
check: once total_completed + total_failed covers total_tasks the status
is forced to failed when every task failed and to completed otherwise,
and completed_at is stamped.  appliedUpdates is the part before the drain
check. -/
def appliedUpdates (qd : QueueData)
    (status error completedTask failedTask : Option String) : QueueData :=
  let qd1 : QueueData := match status with
    | some s => { qd with status := s }
    | none => qd
  let qd2 : QueueData := match error with
    | some e => { qd1 with error := some e }
    | none => qd1
  let qd3 : QueueData := match completedTask with
    | some t =>
        let ct := qd2.completed_tasks ++ [t]
        { qd2 with completed_tasks := ct, total_completed := ct.length }
    | none => qd2
  match failedTask with
    | some t =>
        let ft := qd3.failed_tasks ++ [t]
        { qd3 with failed_tasks := ft, total_failed := ft.length }
    | none => qd3

/-- Drain check of QueueService._update_queue_status, applied after
appliedUpdates (see its doc). -/
def updateQueueStatusData (qd : QueueData)
    (status error completedTask failedTask : Option String) (now : String) : QueueData :=
  let qd4 : QueueData := appliedUpdates qd status error completedTask failedTask
  if qd4.total_tasks ≤ qd4.total_completed + qd4.total_failed then
    if qd4.total_failed = qd4.total_tasks then
      { qd4 with status := "failed", completed_at := some now }
    else
      { qd4 with status := "completed", completed_at := some now }
  else qd4

/-- QueueService._update_queue_status: loads the queue blob, applies
updateQueueStatusData and stores the result; returns False when the queue
data key does not exist. -/
def qsUpdateQueueStatus (st : QSStore) (qid : String)
    (status error completedTask failedTask : Option String) (now : String) : Bool × QSStore :=
  match alookup st.queueDatas qid with
  | none => (false, st)
  | some qd =>
      (true, { st with
        queueDatas :=
          aset st.queueDatas qid
            (updateQueueStatusData qd status error completedTask failedTask now) })

/-- QueueService.get_queue_status: loads and returns the stored queue blob
verbatim; nothing is recomputed from counts and nothing is written back. -/
def qsGetQueueStatus (st : QSStore) (qid : String) : Option QueueData :=
  alookup st.queueDatas qid

/-- Insertion step of the sort in QueueService.get_user_active_queues. -/
def insertByCreatedDesc (qd : QueueData) : List QueueData → List QueueData
  | [] => [qd]
  | x :: xs =>
      if x.created_at ≤ qd.created_at then qd :: x :: xs else x :: insertByCreatedDesc qd xs

/-- Sort of the active-queue list by created_at, newest first. -/
def sortByCreatedDesc : List QueueData → List QueueData
  | [] => []
  | x :: xs => insertByCreatedDesc x (sortByCreatedDesc xs)

/-- QueueService.get_user_active_queues: resolves the user's recorded
queue ids, keeps the queues whose stored status is waiting or processing,
and sorts them newest first. -/
def qsGetUserActiveQueues (st : QSStore) (userId : String) : List QueueData :=
  match alookup st.userQueues userId with
  | none => []
  | some qids =>
      sortByCreatedDesc
        ((qids.filterMap (fun q => qsGetQueueStatus st q)).filter
          (fun qd => decide (qd.status = "waiting" ∨ qd.status = "processing")))

/-- QueueService._start_queue_processing on its non-exceptional path:
marks the queue processing through _update_queue_status and enqueues one
RQ job per task. -/
def startQueueProcessing (st : QSStore) (qid : String) (tasks : List String) (now : String) :
    QSStore :=
  let st1 := (qsUpdateQueueStatus st qid (some "processing") none none none now).2
  { st1 with rqJobs := aset st1.rqJobs qid (((alookup st1.rqJobs qid).getD []) ++ tasks) }

/-- QueueService.create_generation_queue.  freshId stands for the uuid
queue id and now for the creation timestamp.  The concurrency is clamped
to 1..10; when the owner already has MAX_ACTIVE_QUEUES_PER_USER queues in
waiting/processing the call returns None before writing anything. -/
def createGenerationQueue (st : QSStore) (userId : String) (tasks : List String)
    (modelId projectId : ℤ) (concurrency : ℕ) (freshId now : String) : Option String × QSStore :=
  let c := max 1 (min 10 concurrency)
  let active := qsGetUserActiveQueues st userId
  if MAX_ACTIVE_QUEUES_PER_USER ≤ active.length then (none, st)
  else
    let qd : QueueData :=
      { queue_id := freshId, user_id := userId, project_id := projectId, model_id := modelId,
        created_at := now, status := "waiting", total_tasks := tasks.length,
        total_completed := 0, total_failed := 0, completed_tasks := [], failed_tasks := [],
        concurrency := c, error := none, completed_at := none, cancelled_at := none }
    let st1 := { st with queueDatas := aset st.queueDatas freshId qd }
    let st2 := { st1 with queueTasks := aset st1.queueTasks freshId tasks }
    let prev := (alookup st2.userQueues userId).getD []
    let st3 := { st2 with userQueues := aset st2.userQueues userId (prev ++ [freshId]) }
    (some freshId, startQueueProcessing st3 freshId tasks now)

/-- QueueService.cancel_queue: returns False for a missing queue or a
caller that is not the stored owner, with no write; on success it cancels
and empties the RQ queue and stores the blob with status failed, an
explanatory error and a cancelled_at stamp. -/
def qsCancelQueue (st : QSStore) (qid userId now : String) : Bool × QSStore :=
  match alookup st.queueDatas qid with
  | none => (false, st)
  | some qd =>
      if qd.user_id ≠ userId then (false, st)
      else
        let st1 := { st with rqJobs := aset st.rqJobs qid [] }
        let qd1 := { qd with
          status := "failed", error := some "队列已被用户取消", cancelled_at := some now }
        (true, { st1 with queueDatas := aset st1.queueDatas qid qd1 })

/-- Whether a stored queue blob counts as unfinished for startup
reconciliation. -/
def isUnfinished (p : String × QueueData) : Bool :=
  decide (p.2.status = "waiting" ∨ p.2.status = "processing")

/-- Rewrite applied by mark_unfinished_queues_as_failed to one stored
queue entry. -/
def markOne (p : String × QueueData) : String × QueueData :=
  if p.2.status = "waiting" ∨ p.2.status = "processing" then
    (p.1, { p.2 with status := "failed", error := some "服务重启，队列未能完成" })
  else p

/-- Loop of QueueService.mark_unfinished_queues_as_failed over all stored
queue blobs, returning the rewritten entries and the updated count. -/
def markUnfinishedList : List (String × QueueData) → List (String × QueueData) × ℕ
  | [] => ([], 0)
  | p :: rest =>
      let r := markUnfinishedList rest
      if p.2.status = "waiting" ∨ p.2.status = "processing" then
        ((p.1, { p.2 with status := "failed", error := some "服务重启，队列未能完成" }) :: r.1,
          r.2 + 1)
      else (p :: r.1, r.2)

/-- QueueService.mark_unfinished_queues_as_failed: scans every queue data
key, marks the waiting/processing queues failed with a restart reason and
returns how many were updated. -/
def markUnfinishedQueuesAsFailed (st : QSStore) : QSStore × ℕ :=
  let r := markUnfinishedList st.queueDatas
  ({ st with queueDatas := r.1 }, r.2)

/-! ### RedisQueueService (backend/app/services/redis_queue_service.py) -/

/-- The queue_info hash of a queue.  Numeric fields are stored as strings
in Redis and round-trip through int(); they are modelled at their integer
values.  completed_tasks / failed_tasks are the counter fields written at
creation as zero and never updated by this service. -/
structure QueueInfoHash where
  user_id : String
  model_id : String
  project_id : String
  concurrency : ℕ
  total_tasks : ℕ
  completed_tasks : ℕ
  failed_tasks : ℕ
  status : String
  created_at : String
deriving Repr, DecidableEq

/-- A per-task hash written by RedisQueueService.create_queue. -/
structure TaskHash where
  task_id : String
  queue_id : String
  status : String
  model_id : String
  project_id : String
  image_id : String
  image_url : String
  prompt : String
  width : ℕ
  height : ℕ
  seeds : List ℕ
  source_image_path : String
deriving Repr, DecidableEq

/-- An input task dictionary passed to RedisQueueService.create_queue
(width and height default to 1024 when absent). -/
structure RTask where
  image_id : String
  image_url : String
  prompt : String
  width : Option ℕ
  height : Option ℕ
  seeds : List ℕ
  source_image_path : String
deriving Repr, DecidableEq

/-- The slice of the Redis keyspace touched by RedisQueueService: the
queue_info hashes, the per-queue pending id lists, the per-task hashes,
the per-queue completed/failed/processing entry lists, and the global
image_tasks pending list used by get_next_task. -/
structure RedisStore where
  queueInfos : List (String × QueueInfoHash)
  pending : List (String × List String)
  taskHashes : List (String × TaskHash)
  completedTasks : List (String × List String)
  failedTasks : List (String × List String)
  processingTasks : List (String × List String)
  imageTasks : List String
deriving Repr, DecidableEq

/-- Task hash built for one input task (loop body of create_queue). -/
def buildTaskHash (qid modelId projectId tid : String) (t : RTask) : TaskHash :=
  { task_id := tid, queue_id := qid, status := "waiting", model_id := modelId,
    project_id := projectId, image_id := t.image_id, image_url := t.image_url,
    prompt := t.prompt, width := t.width.getD 1024, height := t.height.getD 1024,
    seeds := t.seeds, source_image_path := t.source_image_path }

/-- RedisQueueService.create_queue.  freshQueueId / freshTaskIds stand for
the uuid ids generated for the queue and for each task.  The method
performs no per-owner quota check of any kind: it stores every task hash,
fills the pending list and writes the queue_info hash unconditionally,
then returns the new queue id.  redisCreateTaskStep is its per-task
pipeline body. -/
def redisCreateTaskStep (freshQueueId modelId projectId : String)
    (acc : RedisStore) (p : RTask × String) : RedisStore :=
  let st1 := { acc with
    taskHashes :=
      aset acc.taskHashes p.2 (buildTaskHash freshQueueId modelId projectId p.2 p.1) }
  { st1 with
    pending :=
      aset st1.pending freshQueueId
        (((alookup st1.pending freshQueueId).getD []) ++ [p.2]) }

/-- RedisQueueService.create_queue (see redisCreateTaskStep). -/
def redisCreateQueue (st : RedisStore) (tasks : List RTask) (modelId projectId : ℤ)
    (userId : String) (concurrency : ℕ) (freshQueueId : String) (freshTaskIds : List String)
    (now : String) : String × RedisStore :=
  let info : QueueInfoHash :=
    { user_id := userId, model_id := toString modelId, project_id := toString projectId,
      concurrency := concurrency, total_tasks := tasks.length, completed_tasks := 0,
      failed_tasks := 0, status := "waiting", created_at := now }
  let withTasks := (tasks.zip freshTaskIds).foldl
    (redisCreateTaskStep freshQueueId (toString modelId) (toString projectId)) st
  (freshQueueId, { withTasks with queueInfos := aset withTasks.queueInfos freshQueueId info })

/-- RedisQueueService._calculate_queue_status.  A queue whose completed
and failed counts cover every task is reported completed unconditionally,
even when every task failed. -/
def calculateQueueStatus (st : RedisStore) (qid : String)
    (totalTasks completedCount failedCount : ℕ) : String :=
  if totalTasks ≤ completedCount + failedCount then "completed"
  else if 0 < ((alookup st.processingTasks qid).getD []).length then "processing"
  else if 0 < ((alookup st.pending qid).getD []).length then "waiting"
  else if 0 < completedCount then "completed"
  else "waiting"

/-- The dictionary returned by RedisQueueService.get_queue_status. -/
structure QueueView where
  user_id : String
  model_id : String
  project_id : String
  concurrency : ℕ
  total_tasks : ℕ
  completed_tasks : ℕ
  total_completed : ℕ
  failed_tasks : ℕ
  pending_tasks : ℤ
  current_tasks : List String
  completed_task_details : List String
  failed_task_details : List String
  status : String
  created_at : String
deriving Repr, DecidableEq

/-- RedisQueueService.get_queue_status: reads the queue_info hash and the
three per-queue entry lists, computes the counts and the status from
them, and returns the merged view together with the store, which it never
writes: a stale stored status is corrected only in the returned view. -/
def redisGetQueueStatus (st : RedisStore) (qid : String) : Option QueueView × RedisStore :=
  match alookup st.queueInfos qid with
  | none => (none, st)
  | some info =>
      let completedL := (alookup st.completedTasks qid).getD []
      let failedL := (alookup st.failedTasks qid).getD []
      let currentL := (alookup st.processingTasks qid).getD []
      let completedCount := completedL.length
      let failedCount := failedL.length
      let currentCount := currentL.length
      let totalTasks := info.total_tasks
      let pendingCount : ℤ := (totalTasks : ℤ) - completedCount - failedCount - currentCount
      let currentStatus := calculateQueueStatus st qid totalTasks completedCount failedCount
      (some
        { user_id := info.user_id, model_id := info.model_id, project_id := info.project_id,
          concurrency := info.concurrency, total_tasks := totalTasks,
          completed_tasks := completedCount, total_completed := completedCount,
          failed_tasks := failedCount, pending_tasks := pendingCount,
          current_tasks := currentL, completed_task_details := completedL,
          failed_task_details := failedL, status := currentStatus,
          created_at := info.created_at }, st)

/-- RedisQueueService.get_user_active_queues: scans every queue_info key
and keeps the queues of the user whose status differs from completed. -/
def redisGetUserActiveQueues (st : RedisStore) (userId : String) :
    List (String × QueueInfoHash) :=
  st.queueInfos.filter (fun p => decide (p.2.user_id = userId ∧ p.2.status ≠ "completed"))

/-- RedisQueueService.cancel_queue: returns False for a missing queue or a
caller that is not the stored owner, with no write; on success the single
hset writes the status field of the queue_info hash to cancelled. -/
def redisCancelQueue (st : RedisStore) (qid userId : String) : Bool × RedisStore :=
  match alookup st.queueInfos qid with
  | none => (false, st)
  | some info =>
      if info.user_id ≠ userId then (false, st)
      else
        (true, { st with
          queueInfos := aset st.queueInfos qid { info with status := "cancelled" } })

/-- RedisQueueService.update_queue_status: writes the status field when
the queue_info key exists. -/
def redisUpdateQueueStatus (st : RedisStore) (qid status : String) : Bool × RedisStore :=
  match alookup st.queueInfos qid with
  | none => (false, st)
  | some info =>
      (true, { st with queueInfos := aset st.queueInfos qid { info with status := status } })

/-! ### Task dispatch loop (backend/app/services/queue_worker.py) -/

/-- RedisQueueService.get_next_task: pops the head of the global
image_tasks list; it accepts no queue argument. -/
def getNextTask (st : RedisStore) : Option String × RedisStore :=
  match st.imageTasks with
  | [] => (none, st)
  | t :: rest => (some t, { st with imageTasks := rest })

/-- Semantics of the call the dispatcher loop QueueWorker.process_queue
actually makes: it passes queue_id to get_next_task, but
RedisQueueService.get_next_task accepts no positional argument besides
self, so every such call raises TypeError before any task is popped. -/
def getNextTaskWithQueueArg (_st : RedisStore) (_qid : String) :
    Except String (Option String × RedisStore) :=
  Except.error "TypeError: get_next_task() takes 1 positional argument but 2 were given"

/-- The admission (top-up) inner loop of QueueWorker.process_queue: while
fewer than concurrency tasks are in flight, pull the next task of the
queue and admit it; it stops when the pull returns nothing or the
concurrency budget is reached, and propagates the exception of a failed
pull.  Returns the new in-flight count. -/
def dispatchTopUp (st : RedisStore) (qid : String) (concurrency inflight : ℕ) :
    Except String (ℕ × RedisStore) :=
  if _h : inflight < concurrency then
    match getNextTaskWithQueueArg st qid with
    | Except.error e => Except.error e
    | Except.ok (none, st1) => Except.ok (inflight, st1)
    | Except.ok (some _, st1) => dispatchTopUp st1 qid concurrency (inflight + 1)
  else Except.ok (inflight, st)
termination_by concurrency - inflight
decreasing_by omega

/-- Exception handler of QueueWorker.start_queue: any error raised while
processing the queue marks the whole queue failed. -/
def startQueueOnError (st : RedisStore) (qid : String) : RedisStore :=
  (redisUpdateQueueStatus st qid "failed").2

/-! ### Concrete keyspaces used by the executable checks -/

/-- An empty Redis keyspace. -/
def emptyRedisStore : RedisStore :=
  { queueInfos := [], pending := [], taskHashes := [], completedTasks := [],
    failedTasks := [], processingTasks := [], imageTasks := [] }

/-- A queue_info hash of a waiting queue owned by the given user. -/
def waitingInfo (userId : String) (totalTasks concurrency : ℕ) : QueueInfoHash :=
  { user_id := userId, model_id := "1", project_id := "1", concurrency := concurrency,
    total_tasks := totalTasks, completed_tasks := 0, failed_tasks := 0,
    status := "waiting", created_at := "2024-01-01T00:00:00" }

/-- One queue of five pending tasks with concurrency 2. -/
def storeFivePending : RedisStore :=
  { emptyRedisStore with
    queueInfos := [("q1", waitingInfo "u1" 5 2)],
    pending := [("q1", ["t1", "t2", "t3", "t4", "t5"])] }

/-- Five waiting queues owned by user u. -/
def storeFiveActive : RedisStore :=
  { emptyRedisStore with
    queueInfos := [("q1", waitingInfo "u" 3 5), ("q2", waitingInfo "u" 3 5),
      ("q3", waitingInfo "u" 3 5), ("q4", waitingInfo "u" 3 5),
      ("q5", waitingInfo "u" 3 5)] }

/-- A queue_info hash whose two tasks have both completed while the
stored status still says processing (a stale stored status). -/
def staleInfo : QueueInfoHash :=
  { user_id := "u", model_id := "1", project_id := "1", concurrency := 2,
    total_tasks := 2, completed_tasks := 0, failed_tasks := 0,
    status := "processing", created_at := "t0" }

/-- Redis keyspace holding the stale queue above. -/
def staleStore : RedisStore :=
  { emptyRedisStore with
    queueInfos := [("q", staleInfo)],
    completedTasks := [("q", ["a", "b"])] }

/-- A stored QueueService queue blob owned by alice, mid-processing, with
two of three tasks already completed. -/
def qdAlice : QueueData :=
  { queue_id := "q", user_id := "alice", project_id := 1, model_id := 1,
    created_at := "t0", status := "processing", total_tasks := 3,
    total_completed := 2, total_failed := 0, completed_tasks := ["a", "b"],
    failed_tasks := [], concurrency := 2, error := none, completed_at := none,
    cancelled_at := none }

/-- QueueService keyspace holding only qdAlice. -/
def qsStoreAlice : QSStore :=
  { queueDatas := [("q", qdAlice)], queueTasks := [], userQueues := [], rqJobs := [] }

/-- QueueService keyspace with one waiting and one completed queue. -/
def qsStoreMix : QSStore :=
  { queueDatas :=
      [("a", { qdAlice with queue_id := "a", status := "waiting" }),
       ("b", { qdAlice with queue_id := "b", status := "completed" })],
    queueTasks := [("a", ["x"])], userQueues := [("alice", ["a", "b"])], rqJobs := [] }

/-- QueueService keyspace in which user u holds five active queues. -/
def qsStoreFiveActive : QSStore :=
  { queueDatas :=
      [("a", { qdAlice with queue_id := "a", user_id := "u", status := "waiting" }),
       ("b", { qdAlice with queue_id := "b", user_id := "u", status := "waiting" }),
       ("c", { qdAlice with queue_id := "c", user_id := "u", status := "processing" }),
       ("d", { qdAlice with queue_id := "d", user_id := "u", status := "waiting" }),
       ("e", { qdAlice with queue_id := "e", user_id := "u", status := "processing" })],
    queueTasks := [], userQueues := [("u", ["a", "b", "c", "d", "e"])], rqJobs := [] }

/-- A stale drained QueueService blob: both of its two tasks completed
while the stored status still reads processing. -/
def qdStaleDrained : QueueData := { qdAlice with total_tasks := 2 }

/-- QueueService keyspace holding only qdStaleDrained. -/
def qsStoreStale : QSStore :=
  { queueDatas := [("q", qdStaleDrained)], queueTasks := [], userQueues := [], rqJobs := [] }

/-! ### Helper lemmas -/

theorem alookup_aset_self {α : Type} (l : List (String × α)) (k : String) (v : α) :
    alookup (aset l k v) k = some v := by
  induction l with
  | nil => simp [aset, alookup]
  | cons p rest ih =>
      obtain ⟨k1, w⟩ := p
      by_cases h : k = k1
      · subst h
        simp [aset, alookup]
      · simp [aset, alookup, h, ih]

theorem alookup_aset_ne {α : Type} (l : List (String × α)) (k q : String) (v : α)
    (h : q ≠ k) : alookup (aset l k v) q = alookup l q := by
  induction l with
  | nil => simp [aset, alookup, h]
  | cons p rest ih =>
      obtain ⟨k1, w⟩ := p
      by_cases h1 : k = k1
      · subst h1
        simp [aset, alookup, h]
      · by_cases h2 : q = k1 <;> simp [aset, alookup, h1, h2, ih]

theorem truncate_eq_lastTen (l : List ℚ) :
    (if 10 < l.length then l.drop (l.length - 10) else l) = lastTen l := by
  by_cases h : 10 < l.length
  · simp [h, lastTen]
  · have h0 : l.length - 10 = 0 := by omega
    simp [h, lastTen, h0]

theorem lastTen_length_le (l : List ℚ) : (lastTen l).length ≤ 10 := by
  simp only [lastTen, List.length_drop]
  omega

theorem lastTen_ne_nil (l : List ℚ) (h : l ≠ []) : lastTen l ≠ [] := by
  have h1 : 0 < l.length := List.length_pos.mpr h
  have h2 : 0 < (lastTen l).length := by
    simp only [lastTen, List.length_drop]
    omega
  exact List.length_pos.mp h2

theorem newDurations_ne_nil (e : TimeEstimator) (t : ℚ) (cur : ℤ)
    (_h : e.last_step < cur) : newDurations e t cur ≠ [] := by
  unfold newDurations
  by_cases h1 : 1 < cur - e.last_step
  · simp only [h1, if_true]
    intro hc
    rcases List.append_eq_nil.mp hc with ⟨-, hr⟩
    rw [List.replicate_eq_nil_iff] at hr
    omega
  · simp [h1]

theorem teUpdate_newStep_state (e : TimeEstimator) (t : ℚ) (cur : ℤ)
    (h : cur ≠ e.last_step) :
    (teUpdate e t cur).1 =
      { e with step_times := lastTen (newDurations e t cur),
               last_step_time := t, last_step := cur } := by
  simp only [teUpdate, if_neg h, truncate_eq_lastTen, newDurations]

theorem teUpdate_newStep_est (e : TimeEstimator) (t : ℚ) (cur : ℤ)
    (h : cur ≠ e.last_step) :
    (teUpdate e t cur).2.estimated_remaining_seconds =
      round1 (mean (lastTen (newDurations e t cur)) * ((e.total_steps - cur : ℤ) : ℚ)) := by
  simp only [teUpdate, if_neg h, truncate_eq_lastTen, newDurations]

theorem teUpdate_dup_state (e : TimeEstimator) (t : ℚ) (cur : ℤ)
    (h : cur = e.last_step) : (teUpdate e t cur).1 = e := by
  simp [teUpdate, h]

theorem teUpdate_dup_est (e : TimeEstimator) (t : ℚ) (cur : ℤ)
    (h : cur = e.last_step) (hne : e.step_times ≠ []) :
    (teUpdate e t cur).2.estimated_remaining_seconds =
      round1 (mean e.step_times * ((e.total_steps - cur : ℤ) : ℚ)) := by
  have hl : 0 < e.step_times.length := List.length_pos.mpr hne
  simp [teUpdate, h, hl]

theorem insertByCreatedDesc_length (qd : QueueData) (l : List QueueData) :
    (insertByCreatedDesc qd l).length = l.length + 1 := by
  induction l with
  | nil => rfl
  | cons x xs ih =>
      by_cases h : x.created_at ≤ qd.created_at <;> simp [insertByCreatedDesc, h, ih]

theorem sortByCreatedDesc_length (l : List QueueData) :
    (sortByCreatedDesc l).length = l.length := by
  induction l with
  | nil => rfl
  | cons x xs ih => simp [sortByCreatedDesc, insertByCreatedDesc_length, ih]

theorem qsGetUserActiveQueues_length (st : QSStore) (uid : String) (qids : List String)
    (h : alookup st.userQueues uid = some qids) :
    (qsGetUserActiveQueues st uid).length =
      ((qids.filterMap (fun q => qsGetQueueStatus st q)).filter
        (fun qd => decide (qd.status = "waiting" ∨ qd.status = "processing"))).length := by
  simp [qsGetUserActiveQueues, h, sortByCreatedDesc_length]

/-! ### Claim theorems -/

/-- C7: for every progress update carrying a strictly larger step index,
the rolling window afterwards is exactly the at-most-10 most recent
recorded inter-step durations, its size is at most 10, and the computed
remaining time is the arithmetic mean of that window multiplied by the
number of remaining steps (total_steps - current_step), rounded for
display. -/
theorem update_moving_average_remaining (e : TimeEstimator) (t : ℚ) (cur : ℤ)
    (h : e.last_step < cur) :
    (teUpdate e t cur).1.step_times = lastTen (newDurations e t cur) ∧
    (teUpdate e t cur).1.step_times.length ≤ 10 ∧
    (teUpdate e t cur).2.estimated_remaining_seconds =
      round1 (mean ((teUpdate e t cur).1.step_times) * ((e.total_steps - cur : ℤ) : ℚ)) := by
  have hne : cur ≠ e.last_step := ne_of_gt h
  have hs := teUpdate_newStep_state e t cur hne
  refine ⟨by rw [hs], ?_, ?_⟩
  · rw [hs]
    exact lastTen_length_le _
  · rw [hs, teUpdate_newStep_est e t cur hne]

/-- Closed witness for update_moving_average_remaining at a fresh
20-step estimator updated to step 1 at time 2. -/
theorem update_moving_average_remaining_witness :
    (TimeEstimator.init 20 0).last_step < 1 ∧
    ((teUpdate (TimeEstimator.init 20 0) 2 1).1.step_times =
        lastTen (newDurations (TimeEstimator.init 20 0) 2 1) ∧
      (teUpdate (TimeEstimator.init 20 0) 2 1).1.step_times.length ≤ 10 ∧
      (teUpdate (TimeEstimator.init 20 0) 2 1).2.estimated_remaining_seconds =
        round1 (mean ((teUpdate (TimeEstimator.init 20 0) 2 1).1.step_times) *
          (((TimeEstimator.init 20 0).total_steps - 1 : ℤ) : ℚ))) :=
  ⟨by decide, update_moving_average_remaining (TimeEstimator.init 20 0) 2 1 (by decide)⟩

/-- C4: reporting the same step index a second time (a duplicate event)
leaves the estimator state, in particular the rolling window of
inter-step durations, unchanged, and yields the same
estimated_remaining_seconds as the first report, independently of the
wall-clock instant of the duplicate. -/
theorem duplicate_step_report_idempotent (e : TimeEstimator) (t1 t2 : ℚ) (cur : ℤ)
    (h : e.last_step < cur) :
    (teUpdate (teUpdate e t1 cur).1 t2 cur).1 = (teUpdate e t1 cur).1 ∧
    (teUpdate (teUpdate e t1 cur).1 t2 cur).1.step_times = (teUpdate e t1 cur).1.step_times ∧
    (teUpdate (teUpdate e t1 cur).1 t2 cur).2.estimated_remaining_seconds =
      (teUpdate e t1 cur).2.estimated_remaining_seconds := by
  have hne : cur ≠ e.last_step := ne_of_gt h
  have hs := teUpdate_newStep_state e t1 cur hne
  have hdup : cur = (teUpdate e t1 cur).1.last_step := by rw [hs]
  have hb : (teUpdate e t1 cur).1.step_times ≠ [] := by
    rw [hs]
    exact lastTen_ne_nil _ (newDurations_ne_nil e t1 cur h)
  refine ⟨teUpdate_dup_state _ t2 cur hdup, ?_, ?_⟩
  · rw [teUpdate_dup_state _ t2 cur hdup]
  · rw [teUpdate_dup_est _ t2 cur hdup hb, teUpdate_newStep_est e t1 cur hne, hs]

/-- Closed witness for duplicate_step_report_idempotent: step 1 reported
at time 2, then reported again at time 5. -/
theorem duplicate_step_report_idempotent_witness :
    (TimeEstimator.init 20 0).last_step < 1 ∧
    ((teUpdate (teUpdate (TimeEstimator.init 20 0) 2 1).1 5 1).1 =
        (teUpdate (TimeEstimator.init 20 0) 2 1).1 ∧
      (teUpdate (teUpdate (TimeEstimator.init 20 0) 2 1).1 5 1).1.step_times =
        (teUpdate (TimeEstimator.init 20 0) 2 1).1.step_times ∧
      (teUpdate (teUpdate (TimeEstimator.init 20 0) 2 1).1 5 1).2.estimated_remaining_seconds =
        (teUpdate (TimeEstimator.init 20 0) 2 1).2.estimated_remaining_seconds) :=
  ⟨by decide, duplicate_step_report_idempotent (TimeEstimator.init 20 0) 2 5 1 (by decide)⟩

/-- C8: the restart delay after the k-th consecutive worker-bootstrap
failure equals min(2 ^ (k - 1), 120) for k in 1..10, so it doubles up to
the 120-second cap, never decreases from one failure to the next, is
strictly increasing while below the cap, and never exceeds 120; once the
bounded retry count of 10 is exhausted, the 11th consecutive failure
sleeps a fixed 300 seconds instead of retrying at the cap. -/
theorem worker_restart_backoff_properties :
    (∀ k, k ≤ 10 → 1 ≤ k → nthFailureDelay k = min (2 ^ (k - 1)) 120) ∧
    (∀ k, k ≤ 9 → 1 ≤ k → nthFailureDelay k ≤ nthFailureDelay (k + 1)) ∧
    (∀ k, k ≤ 7 → 1 ≤ k → nthFailureDelay k < nthFailureDelay (k + 1)) ∧
    (∀ k, k ≤ 10 → 1 ≤ k → nthFailureDelay k ≤ 120) ∧
    nthFailureDelay 11 = 300 := by
  decide

/-- Closed witness for worker_restart_backoff_properties at the third and
fourth consecutive failures. -/
theorem worker_restart_backoff_witness :
    nthFailureDelay 3 = min (2 ^ (3 - 1)) 120 ∧
    nthFailureDelay 3 < nthFailureDelay 4 ∧
    nthFailureDelay 11 = 300 :=
  ⟨worker_restart_backoff_properties.1 3 (by decide) (by decide),
   worker_restart_backoff_properties.2.2.1 3 (by decide) (by decide),
   worker_restart_backoff_properties.2.2.2.2⟩

/-- C1 (amended): in the QueueService path, once the recorded completed
and failed counts cover total_tasks, _update_queue_status sets the final
status to failed exactly when every task failed, and to completed as soon
as at least one task succeeded, whatever the failed count; in the
RedisQueueService path, _calculate_queue_status reports every drained
queue as completed unconditionally, so there the final status is never
failed, even when every task failed. -/
theorem drain_status_failed_iff_all_failed (qd : QueueData)
    (s er ct ft : Option String) (now : String)
    (h : (appliedUpdates qd s er ct ft).total_tasks ≤
      (appliedUpdates qd s er ct ft).total_completed +
        (appliedUpdates qd s er ct ft).total_failed) :
    ((updateQueueStatusData qd s er ct ft now).status = "failed" ↔
      (appliedUpdates qd s er ct ft).total_failed = (appliedUpdates qd s er ct ft).total_tasks) ∧
    ((appliedUpdates qd s er ct ft).total_completed +
        (appliedUpdates qd s er ct ft).total_failed =
          (appliedUpdates qd s er ct ft).total_tasks →
      1 ≤ (appliedUpdates qd s er ct ft).total_completed →
      (updateQueueStatusData qd s er ct ft now).status = "completed") ∧
    (∀ (st : RedisStore) (qid : String) (total completed failed : ℕ),
      total ≤ completed + failed →
      calculateQueueStatus st qid total completed failed = "completed") := by
  refine ⟨?_, ?_, ?_⟩
  · by_cases hf : (appliedUpdates qd s er ct ft).total_failed =
        (appliedUpdates qd s er ct ft).total_tasks
    · simp [updateQueueStatusData, h, hf]
    · simp [updateQueueStatusData, h, hf]
  · intro heq hc
    have hf : ¬ (appliedUpdates qd s er ct ft).total_failed =
        (appliedUpdates qd s er ct ft).total_tasks := by omega
    simp [updateQueueStatusData, h, hf]
  · intro st qid total completed failed hle
    simp [calculateQueueStatus, hle]

/-- Closed witness for drain_status_failed_iff_all_failed: reporting the
third task of qdAlice failed (two tasks succeeded earlier) drains the
queue with final status completed. -/
theorem drain_status_witness :
    ((updateQueueStatusData qdAlice none none none (some "z") "t1").status = "failed" ↔
      (appliedUpdates qdAlice none none none (some "z")).total_failed =
        (appliedUpdates qdAlice none none none (some "z")).total_tasks) ∧
    (updateQueueStatusData qdAlice none none none (some "z") "t1").status = "completed" ∧
    calculateQueueStatus emptyRedisStore "w" 2 1 1 = "completed" :=
  ⟨(drain_status_failed_iff_all_failed qdAlice none none none (some "z") "t1" (by decide)).1,
   (drain_status_failed_iff_all_failed qdAlice none none none (some "z") "t1" (by decide)).2.1
     (by decide) (by decide),
   (drain_status_failed_iff_all_failed qdAlice none none none (some "z") "t1" (by decide)).2.2
     emptyRedisStore "w" 2 1 1 (by decide)⟩

/-- C1 counterexample: a drained queue all of whose three tasks failed is
reported completed, not failed, by RedisQueueService._calculate_queue_status. -/
theorem calculate_status_all_failed_reports_completed :
    calculateQueueStatus emptyRedisStore "q" 3 0 3 = "completed" ∧
    calculateQueueStatus emptyRedisStore "q" 3 0 3 ≠ "failed" := by
  refine ⟨by decide, by decide⟩

/-- C2 (amended): QueueService.create_generation_queue rejects, returning
no queue id and leaving the store untouched, when the owner already has
MAX_ACTIVE_QUEUES_PER_USER queues in waiting/processing;
RedisQueueService.create_queue performs no quota check at all: whatever
the owner's active-queue count, it returns the fresh queue id and writes
the queue state. -/
theorem create_queue_quota_enforcement :
    (∀ (st : QSStore) (userId : String) (tasks : List String) (modelId projectId : ℤ)
        (concurrency : ℕ) (freshId now : String),
      MAX_ACTIVE_QUEUES_PER_USER ≤ (qsGetUserActiveQueues st userId).length →
      createGenerationQueue st userId tasks modelId projectId concurrency freshId now =
        (none, st)) ∧
    (∀ (st : RedisStore) (tasks : List RTask) (modelId projectId : ℤ) (userId : String)
        (concurrency : ℕ) (freshQueueId : String) (freshTaskIds : List String) (now : String),
      (redisCreateQueue st tasks modelId projectId userId concurrency freshQueueId
          freshTaskIds now).1 = freshQueueId ∧
      alookup (redisCreateQueue st tasks modelId projectId userId concurrency freshQueueId
          freshTaskIds now).2.queueInfos freshQueueId =
        some { user_id := userId, model_id := toString modelId, project_id := toString projectId, concurrency := concurrency, total_tasks := tasks.length, completed_tasks := 0, failed_tasks := 0, status := "waiting", created_at := now }) := by
  constructor
  · intro st userId tasks modelId projectId concurrency freshId now h
    simp [createGenerationQueue, h]
  · intro st tasks modelId projectId userId concurrency fqid ftids now
    exact ⟨rfl, by simp [redisCreateQueue, alookup_aset_self]⟩

/-- Closed witness for create_queue_quota_enforcement: the sixth queue of
user u is rejected, and RedisQueueService.create_queue still writes a
queue for the same user. -/
theorem create_queue_quota_witness :
    MAX_ACTIVE_QUEUES_PER_USER ≤ (qsGetUserActiveQueues qsStoreFiveActive "u").length ∧
    createGenerationQueue qsStoreFiveActive "u" ["t"] 1 1 3 "f" "t1" =
      (none, qsStoreFiveActive) ∧
    (redisCreateQueue emptyRedisStore [] 1 1 "u" 5 "q6" [] "t1").1 = "q6" :=
  ⟨by
     rw [qsGetUserActiveQueues_length qsStoreFiveActive "u" ["a", "b", "c", "d", "e"] rfl]
     decide,
   create_queue_quota_enforcement.1 qsStoreFiveActive "u" ["t"] 1 1 3 "f" "t1"
     (by
       rw [qsGetUserActiveQueues_length qsStoreFiveActive "u" ["a", "b", "c", "d", "e"] rfl]
       decide),
   (create_queue_quota_enforcement.2 emptyRedisStore [] 1 1 "u" 5 "q6" [] "t1").1⟩

/-- C2 counterexample: user u already holds five active queues, yet
RedisQueueService.create_queue returns a queue id and writes the new
queue_info hash (waiting state) instead of rejecting with a quota error. -/
theorem redis_create_queue_ignores_quota :
    (redisGetUserActiveQueues storeFiveActive "u").length = 5 ∧
    (redisCreateQueue storeFiveActive [] 1 1 "u" 5 "q6" [] "t1").1 = "q6" ∧
    (alookup (redisCreateQueue storeFiveActive [] 1 1 "u" 5 "q6" [] "t1").2.queueInfos
        "q6").map QueueInfoHash.status = some "waiting" := by
  refine ⟨by decide, rfl, by decide⟩

theorem markUnfinishedList_eq (l : List (String × QueueData)) :
    markUnfinishedList l = (l.map markOne, l.countP isUnfinished) := by
  induction l with
  | nil => rfl
  | cons p rest ih =>
      by_cases h : p.2.status = "waiting" ∨ p.2.status = "processing" <;>
        simp [markUnfinishedList, ih, markOne, isUnfinished, h, List.countP_cons]

/-- C5 (amended): the RedisQueueService status read computes the returned
status from the current task counts, so a drained queue is reported with
a terminal status even when the stored status field is stale, but it
persists nothing: the store comes back unchanged, stale stored status
included; and the QueueService status read returns the stored blob
verbatim, computing nothing from counts. -/
theorem status_read_computes_but_does_not_persist :
    (∀ (st : RedisStore) (qid : String), (redisGetQueueStatus st qid).2 = st) ∧
    (∀ (st : RedisStore) (qid : String) (info : QueueInfoHash),
      alookup st.queueInfos qid = some info →
      ((redisGetQueueStatus st qid).1).map QueueView.status =
        some (calculateQueueStatus st qid info.total_tasks
          ((alookup st.completedTasks qid).getD []).length
          ((alookup st.failedTasks qid).getD []).length)) ∧
    (∀ (st : QSStore) (qid : String), qsGetQueueStatus st qid = alookup st.queueDatas qid) := by
  refine ⟨?_, ?_, fun _ _ => rfl⟩
  · intro st qid
    rcases h : alookup st.queueInfos qid with - | info <;> simp [redisGetQueueStatus, h]
  · intro st qid info h
    simp [redisGetQueueStatus, h]

/-- Closed witness for status_read_computes_but_does_not_persist on the
stale drained queue of staleStore. -/
theorem status_read_witness :
    (redisGetQueueStatus staleStore "q").2 = staleStore ∧
    ((redisGetQueueStatus staleStore "q").1).map QueueView.status =
      some (calculateQueueStatus staleStore "q" staleInfo.total_tasks
        ((alookup staleStore.completedTasks "q").getD []).length
        ((alookup staleStore.failedTasks "q").getD []).length) :=
  ⟨status_read_computes_but_does_not_persist.1 staleStore "q",
   status_read_computes_but_does_not_persist.2.1 staleStore "q" staleInfo (by decide)⟩

/-- C5 counterexample: queue q of staleStore is drained (both of its two
tasks completed) while its stored status still reads processing; the
status read returns the computed status completed yet hands back the
store unchanged, stale stored status included, persisting no correction;
and the QueueService read path returns the stale stored status verbatim
instead of computing from counts. -/
theorem status_read_no_self_heal_counterexample :
    ((redisGetQueueStatus staleStore "q").1).map QueueView.status = some "completed" ∧
    (redisGetQueueStatus staleStore "q").2 = staleStore ∧
    (alookup staleStore.queueInfos "q").map QueueInfoHash.status = some "processing" ∧
    (qsGetQueueStatus qsStoreStale "q").map QueueData.status = some "processing" := by
  refine ⟨by decide, by decide, by decide, by decide⟩

/-- C6 (amended): both cancel paths authorize against the stored owner and
return False with no state change for a missing queue or a non-owner, and
both are idempotent: repeating a successful cancel returns True again on
either path.  On success RedisQueueService.cancel_queue sets the queue
status to cancelled (still cancelled after the repeat), while
QueueService.cancel_queue stores the blob with status failed, the
cancelled-by-user error message and a cancelled_at stamp, every other
field (the owner included) preserved, so its status is failed, not
cancelled, and stays failed after the repeat. -/
theorem cancel_queue_authorization_and_idempotence :
    (∀ (st : RedisStore) (qid uid : String), alookup st.queueInfos qid = none →
      redisCancelQueue st qid uid = (false, st)) ∧
    (∀ (st : RedisStore) (qid uid : String) (info : QueueInfoHash),
      alookup st.queueInfos qid = some info → info.user_id ≠ uid →
      redisCancelQueue st qid uid = (false, st)) ∧
    (∀ (st : RedisStore) (qid uid : String) (info : QueueInfoHash),
      alookup st.queueInfos qid = some info → info.user_id = uid →
      (redisCancelQueue st qid uid).1 = true ∧
      alookup (redisCancelQueue st qid uid).2.queueInfos qid =
        some { info with status := "cancelled" } ∧
      (redisCancelQueue (redisCancelQueue st qid uid).2 qid uid).1 = true ∧
      alookup (redisCancelQueue (redisCancelQueue st qid uid).2 qid uid).2.queueInfos qid =
        some { info with status := "cancelled" }) ∧
    (∀ (st : QSStore) (qid uid now : String), alookup st.queueDatas qid = none →
      qsCancelQueue st qid uid now = (false, st)) ∧
    (∀ (st : QSStore) (qid uid now : String) (qd : QueueData),
      alookup st.queueDatas qid = some qd → qd.user_id ≠ uid →
      qsCancelQueue st qid uid now = (false, st)) ∧
    (∀ (st : QSStore) (qid uid now now2 : String) (qd : QueueData),
      alookup st.queueDatas qid = some qd → qd.user_id = uid →
      (qsCancelQueue st qid uid now).1 = true ∧
      alookup (qsCancelQueue st qid uid now).2.queueDatas qid =
        some { qd with
          status := "failed", error := some "队列已被用户取消", cancelled_at := some now } ∧
      (qsCancelQueue (qsCancelQueue st qid uid now).2 qid uid now2).1 = true ∧
      (alookup (qsCancelQueue (qsCancelQueue st qid uid now).2 qid uid
          now2).2.queueDatas qid).map QueueData.status = some "failed") := by
  have keyQS : ∀ (st : QSStore) (qid uid now : String) (j : QueueData),
      alookup st.queueDatas qid = some j → j.user_id = uid →
      qsCancelQueue st qid uid now =
        (true, { st with
          rqJobs := aset st.rqJobs qid [],
          queueDatas := aset st.queueDatas qid { j with
            status := "failed", error := some "队列已被用户取消",
            cancelled_at := some now } }) := by
    intro st qid uid now j hj hju
    simp [qsCancelQueue, hj, hju]
  have key : ∀ (st : RedisStore) (qid uid : String) (j : QueueInfoHash),
      alookup st.queueInfos qid = some j → j.user_id = uid →
      redisCancelQueue st qid uid =
        (true, { st with queueInfos := aset st.queueInfos qid { j with status := "cancelled" } }) := by
    intro st qid uid j hj hju
    simp [redisCancelQueue, hj, hju]
  refine ⟨?_, ?_, ?_, ?_, ?_, ?_⟩
  · intro st qid uid h
    simp [redisCancelQueue, h]
  · intro st qid uid info h hne
    simp [redisCancelQueue, h, hne]
  · intro st qid uid info h hu
    have h1 := key st qid uid info h hu
    have h2 : alookup (redisCancelQueue st qid uid).2.queueInfos qid =
        some { info with status := "cancelled" } := by
      rw [h1]
      exact alookup_aset_self _ _ _
    have h3 := key (redisCancelQueue st qid uid).2 qid uid { info with status := "cancelled" }
      h2 hu
    refine ⟨by rw [h1], h2, by rw [h3], ?_⟩
    rw [h3]
    exact alookup_aset_self _ _ _
  · intro st qid uid now h
    simp [qsCancelQueue, h]
  · intro st qid uid now qd h hne
    simp [qsCancelQueue, h, hne]
  · intro st qid uid now now2 qd h hu
    have k1 := keyQS st qid uid now qd h hu
    have h2 : alookup (qsCancelQueue st qid uid now).2.queueDatas qid =
        some { qd with
          status := "failed", error := some "队列已被用户取消", cancelled_at := some now } := by
      rw [k1]
      exact alookup_aset_self _ _ _
    have k2 := keyQS (qsCancelQueue st qid uid now).2 qid uid now2
      { qd with
        status := "failed", error := some "队列已被用户取消", cancelled_at := some now }
      h2 hu
    refine ⟨by rw [k1], h2, by rw [k2], ?_⟩
    rw [k2, alookup_aset_self]
    rfl

/-- Closed witness for cancel_queue_authorization_and_idempotence: the
owner u cancels queue q of staleStore twice, a cancel of a missing
QueueService queue returns False unchanged, and the owner alice cancels
her QueueService queue twice, both calls returning True with the stored
blob carrying the cancelled-by-user error. -/
theorem cancel_queue_witness :
    (redisCancelQueue staleStore "q" "u").1 = true ∧
    alookup (redisCancelQueue staleStore "q" "u").2.queueInfos "q" =
      some { staleInfo with status := "cancelled" } ∧
    (redisCancelQueue (redisCancelQueue staleStore "q" "u").2 "q" "u").1 = true ∧
    qsCancelQueue qsStoreAlice "x" "alice" "t1" = (false, qsStoreAlice) ∧
    (qsCancelQueue qsStoreAlice "q" "alice" "t1").1 = true ∧
    alookup (qsCancelQueue qsStoreAlice "q" "alice" "t1").2.queueDatas "q" =
      some { qdAlice with
        status := "failed", error := some "队列已被用户取消", cancelled_at := some "t1" } ∧
    (qsCancelQueue (qsCancelQueue qsStoreAlice "q" "alice" "t1").2 "q" "alice" "t2").1 =
      true :=
  ⟨(cancel_queue_authorization_and_idempotence.2.2.1 staleStore "q" "u" staleInfo
      (by decide) (by decide)).1,
   (cancel_queue_authorization_and_idempotence.2.2.1 staleStore "q" "u" staleInfo
      (by decide) (by decide)).2.1,
   (cancel_queue_authorization_and_idempotence.2.2.1 staleStore "q" "u" staleInfo
      (by decide) (by decide)).2.2.1,
   cancel_queue_authorization_and_idempotence.2.2.2.1 qsStoreAlice "x" "alice" "t1"
     (by decide),
   (cancel_queue_authorization_and_idempotence.2.2.2.2.2 qsStoreAlice "q" "alice" "t1" "t2"
      qdAlice (by decide) (by decide)).1,
   (cancel_queue_authorization_and_idempotence.2.2.2.2.2 qsStoreAlice "q" "alice" "t1" "t2"
      qdAlice (by decide) (by decide)).2.1,
   (cancel_queue_authorization_and_idempotence.2.2.2.2.2 qsStoreAlice "q" "alice" "t1" "t2"
      qdAlice (by decide) (by decide)).2.2.1⟩

/-- C6 counterexample: the owner alice successfully cancels her queue via
QueueService.cancel_queue, and the resulting stored status is failed, not
cancelled. -/
theorem qs_cancel_sets_failed_not_cancelled :
    (qsCancelQueue qsStoreAlice "q" "alice" "t1").1 = true ∧
    (alookup (qsCancelQueue qsStoreAlice "q" "alice" "t1").2.queueDatas "q").map
      QueueData.status = some "failed" ∧
    (some "failed" : Option String) ≠ some "cancelled" := by
  refine ⟨by decide, by decide, by decide⟩

/-- C9: startup reconciliation rewrites exactly the stored queues whose
status is waiting or processing, setting status failed and recording the
restart-interruption reason in the error field, leaves every other queue
entry and every other part of the store unchanged, and returns the number
of queues so updated. -/
theorem mark_unfinished_reconciliation (st : QSStore) :
    (markUnfinishedQueuesAsFailed st).2 = st.queueDatas.countP isUnfinished ∧
    (markUnfinishedQueuesAsFailed st).1.queueDatas = st.queueDatas.map markOne ∧
    (∀ (k : String) (qd : QueueData), qd.status = "waiting" ∨ qd.status = "processing" →
      markOne (k, qd) =
        (k, { qd with status := "failed", error := some "服务重启，队列未能完成" })) ∧
    (∀ (k : String) (qd : QueueData), ¬ (qd.status = "waiting" ∨ qd.status = "processing") →
      markOne (k, qd) = (k, qd)) ∧
    (markUnfinishedQueuesAsFailed st).1.queueTasks = st.queueTasks ∧
    (markUnfinishedQueuesAsFailed st).1.userQueues = st.userQueues ∧
    (markUnfinishedQueuesAsFailed st).1.rqJobs = st.rqJobs := by
  refine ⟨?_, ?_, ?_, ?_, rfl, rfl, rfl⟩
  · simp [markUnfinishedQueuesAsFailed, markUnfinishedList_eq]
  · simp [markUnfinishedQueuesAsFailed, markUnfinishedList_eq]
  · intro k qd h
    simp [markOne, h]
  · intro k qd h
    simp [markOne, h]

/-- Closed witness for mark_unfinished_reconciliation on a keyspace with
one waiting and one completed queue: the waiting entry is rewritten with
the restart reason, the completed entry is untouched, and the count is
the number of unfinished queues. -/
theorem mark_unfinished_witness :
    (markUnfinishedQueuesAsFailed qsStoreMix).2 = qsStoreMix.queueDatas.countP isUnfinished ∧
    markOne ("a", { qdAlice with queue_id := "a", status := "waiting" }) =
      ("a", { qdAlice with
        queue_id := "a", status := "failed", error := some "服务重启，队列未能完成" }) ∧
    markOne ("b", { qdAlice with queue_id := "b", status := "completed" }) =
      ("b", { qdAlice with queue_id := "b", status := "completed" }) :=
  ⟨(mark_unfinished_reconciliation qsStoreMix).1,
   (mark_unfinished_reconciliation qsStoreMix).2.2.1 "a"
     { qdAlice with queue_id := "a", status := "waiting" } (Or.inl rfl),
   (mark_unfinished_reconciliation qsStoreMix).2.2.2.1 "b"
     { qdAlice with queue_id := "b", status := "completed" } (by decide)⟩

/-- C10: a successful RedisQueueService.cancel_queue writes only the
status field of the cancelled queue's queue_info record: the pending
lists, the per-task hashes, the completed/failed/processing entry lists,
the global pending list, every other queue_info entry and every other
field of the cancelled queue's own hash (counts included) are unchanged. -/
theorem redis_cancel_frame (st : RedisStore) (qid uid : String) (info : QueueInfoHash)
    (h : alookup st.queueInfos qid = some info) (hu : info.user_id = uid) :
    (redisCancelQueue st qid uid).1 = true ∧
    (redisCancelQueue st qid uid).2.pending = st.pending ∧
    (redisCancelQueue st qid uid).2.taskHashes = st.taskHashes ∧
    (redisCancelQueue st qid uid).2.completedTasks = st.completedTasks ∧
    (redisCancelQueue st qid uid).2.failedTasks = st.failedTasks ∧
    (redisCancelQueue st qid uid).2.processingTasks = st.processingTasks ∧
    (redisCancelQueue st qid uid).2.imageTasks = st.imageTasks ∧
    (∀ q : String, q ≠ qid →
      alookup (redisCancelQueue st qid uid).2.queueInfos q = alookup st.queueInfos q) ∧
    alookup (redisCancelQueue st qid uid).2.queueInfos qid =
      some { info with status := "cancelled" } := by
  have h1 : redisCancelQueue st qid uid =
      (true, { st with
        queueInfos := aset st.queueInfos qid { info with status := "cancelled" } }) := by
    simp [redisCancelQueue, h, hu]
  rw [h1]
  refine ⟨rfl, rfl, rfl, rfl, rfl, rfl, rfl, ?_, alookup_aset_self _ _ _⟩
  intro q hq
  exact alookup_aset_ne _ _ _ _ hq

/-- Closed witness for redis_cancel_frame on staleStore. -/
theorem redis_cancel_frame_witness :
    (redisCancelQueue staleStore "q" "u").1 = true ∧
    (redisCancelQueue staleStore "q" "u").2.completedTasks = staleStore.completedTasks ∧
    (redisCancelQueue staleStore "q" "u").2.pending = staleStore.pending ∧
    alookup (redisCancelQueue staleStore "q" "u").2.queueInfos "other" =
      alookup staleStore.queueInfos "other" ∧
    alookup (redisCancelQueue staleStore "q" "u").2.queueInfos "q" =
      some { staleInfo with status := "cancelled" } :=
  ⟨(redis_cancel_frame staleStore "q" "u" staleInfo (by decide) (by decide)).1,
   (redis_cancel_frame staleStore "q" "u" staleInfo (by decide) (by decide)).2.2.2.1,
   (redis_cancel_frame staleStore "q" "u" staleInfo (by decide) (by decide)).2.1,
   (redis_cancel_frame staleStore "q" "u" staleInfo (by decide)
      (by decide)).2.2.2.2.2.2.2.1 "other" (by decide),
   (redis_cancel_frame staleStore "q" "u" staleInfo (by decide)
      (by decide)).2.2.2.2.2.2.2.2⟩

/-- C3 (code-bug demonstration): on a queue holding five pending tasks
with concurrency 2, the very first admission attempt of the dispatcher
loop raises TypeError, because QueueWorker.process_queue passes queue_id
to RedisQueueService.get_next_task, which accepts no argument; so no task
is ever admitted however many are pending, and the start_queue exception
handler then marks the whole queue failed. -/
theorem dispatch_topup_raises_type_error :
    dispatchTopUp storeFivePending "q1" 2 0 =
      Except.error "TypeError: get_next_task() takes 1 positional argument but 2 were given" ∧
    (alookup (startQueueOnError storeFivePending "q1").queueInfos "q1").map
      QueueInfoHash.status = some "failed" := by
  constructor
  · rw [dispatchTopUp]
    rfl
  · decide

end ImageProject
